import Mathlib

/-!
Verification of the fan-out aggregation engine of `src/roblox-backend.js`:
a shallow embedding of the `SimpleCache` class, the account-age helpers,
the presence-status mapping, the `RobloxAPIQueue` batching loop and the
`fetchRobloxUserData` aggregation function, together with theorems about
the claims of the specification.

Modelling conventions:
- `Date.now()` instants and millisecond durations are `Int` (JS numbers used
  as integral epoch-milliseconds).
- A JS value that may be `undefined` (an absent object key) is an `Option`;
  accessing a key on an object that may lack it yields `none`, and accessing
  a key or index *of* an `undefined` value throws a `TypeError`.
- An upstream HTTP call settles either `rejected` (network error, timeout or
  non-2xx status: axios rejects the promise) or `fulfilled` with the parsed
  response body.  Fulfilled bodies are modelled as objects whose top-level
  keys may be absent (`Option` fields); non-object bodies are not modelled.
-/

namespace RobloxBackend

/-! ## SimpleCache (src/roblox-backend.js lines 9-55) -/

/-- One entry of the `Map` inside `SimpleCache`: a stored value together with
its expiry instant (`Date.now() + ttl` at the time of `set`). -/
structure CacheEntry (α : Type) where
  value : α
  expiry : Int
deriving Repr, DecidableEq

/-- The `SimpleCache` class state: its `Map` is modelled as an association
list with unique keys (maintained by `set`/`del`). -/
structure SimpleCache (α : Type) where
  cache : List (String × CacheEntry α)
deriving Repr, DecidableEq

/-- The default TTL of the cache, `parseInt(process.env.CACHE_TTL) || 300000`
with no environment override: 5 minutes in ms. -/
def defaultTTL : Int := 300000

/-- `SimpleCache#set(key, value, ttl)`: stores `value` under `key` with
expiry `Date.now() + ttl`, overwriting any existing entry for that key. -/
def SimpleCache.set {α : Type} (c : SimpleCache α) (now : Int) (key : String)
    (value : α) (ttl : Int) : SimpleCache α :=
  ⟨(key, ⟨value, now + ttl⟩) :: c.cache.filter (fun p => p.1 != key)⟩

/-- `SimpleCache#get(key)`: returns `null` when no entry exists; when the
entry is expired (`Date.now() > item.expiry`) deletes it and returns `null`;
otherwise returns the stored value.  The returned pair carries the (possibly
mutated) cache state. -/
def SimpleCache.get {α : Type} (c : SimpleCache α) (now : Int) (key : String) :
    Option α × SimpleCache α :=
  match c.cache.lookup key with
  | none => (none, c)
  | some item =>
      if now > item.expiry then
        (none, ⟨c.cache.filter (fun p => p.1 != key)⟩)
      else
        (some item.value, c)

/-- `SimpleCache#del(key)`: `Map#delete`, which removes the entry if
physically present and returns whether one existed — expiry is not
consulted. -/
def SimpleCache.del {α : Type} (c : SimpleCache α) (key : String) :
    Bool × SimpleCache α :=
  (c.cache.any (fun p => p.1 == key), ⟨c.cache.filter (fun p => p.1 != key)⟩)

/-- The statistics record returned by `SimpleCache#getStats()`. -/
structure CacheStats where
  keys : Nat
  hits : Nat
  misses : Nat
deriving Repr, DecidableEq

/-- `SimpleCache#getStats()`: reports the `Map` size and hard-coded
`hits: 0, misses: 0` ("Simplified version without hit tracking"). -/
def SimpleCache.getStats {α : Type} (c : SimpleCache α) : CacheStats :=
  ⟨c.cache.length, 0, 0⟩

/-- `SimpleCache#clear()`: removes all entries and returns how many there
were. -/
def SimpleCache.clear {α : Type} (c : SimpleCache α) : Nat × SimpleCache α :=
  (c.cache.length, ⟨[]⟩)

/-- The body of the `DELETE /cache/user/:username` handler's response
message: `deleted ? 'User cache cleared' : 'User not found in cache'`. -/
def cacheDeleteMessage (deleted : Bool) : String :=
  if deleted then "User cache cleared" else "User not found in cache"

/-! ## Account-age helpers (src/roblox-backend.js lines 162-186) -/

/-- `1000 * 60 * 60 * 24`: milliseconds per day. -/
def msPerDay : Int := 86400000

/-- JS `x || dflt` on an optional string: `undefined` and the empty string
are falsy. -/
def jsOrString (v : Option String) (dflt : String) : String :=
  match v with
  | some s => if s = "" then dflt else s
  | none => dflt

/-- `calculateAgeDays(createdAt)`: `Math.floor((now - created) / 86400000)`;
`Math.floor` of a real quotient is floored integer division `Int.fdiv`. -/
def calculateAgeDays (nowMs createdMs : Int) : Int :=
  Int.fdiv (nowMs - createdMs) msPerDay

/-- `calculateAccountAge(createdAt)`: formats the day count as years (floor
division by 365), months (floor division of `diffDays % 365` by 30) and days
(`diffDays % 30`, JS truncating remainder). -/
def calculateAccountAge (nowMs createdMs : Int) : String :=
  let diffDays := Int.fdiv (nowMs - createdMs) msPerDay
  let years := Int.fdiv diffDays 365
  let months := Int.fdiv (Int.tmod diffDays 365) 30
  let days := Int.tmod diffDays 30
  if years > 0 then
    toString years ++ " years, " ++ toString months ++ " months, " ++
      toString days ++ " days"
  else if months > 0 then
    toString months ++ " months, " ++ toString days ++ " days"
  else
    toString days ++ " days"

/-! ## Presence-status mapping (src/roblox-backend.js lines 282-286) -/

/-- The literal array `['Offline', 'Online', 'In Game', 'In Studio']`. -/
def presenceLabels : List String := ["Offline", "Online", "In Game", "In Studio"]

/-- JS indexing `xs[i]` for an optional integer index: `xs[undefined]` and
out-of-range indices are `undefined`. -/
def jsArrayIndex (xs : List String) (i : Option Int) : Option String :=
  match i with
  | none => none
  | some n => if 0 ≤ n then xs.get? n.toNat else none

/-- `['Offline','Online','In Game','In Studio'][presence.userPresenceType]
|| 'Unknown'`. -/
def presenceStatusOf (code : Option Int) : String :=
  jsOrString (jsArrayIndex presenceLabels code) "Unknown"

/-! ## Upstream responses (src/roblox-backend.js lines 202-267) -/

/-- How one upstream HTTP call settles: axios rejects the promise on network
error, timeout or non-2xx status, and fulfils it with the parsed body
otherwise. -/
inductive UpstreamOutcome (α : Type) where
  | rejected
  | fulfilled (data : α)
deriving Repr, DecidableEq

/-- Whether a fulfilled body satisfies the shape predicate `p`; a rejected
call has no body to test. -/
def UpstreamOutcome.shapeOkB {α : Type} (p : α → Bool) :
    UpstreamOutcome α → Bool
  | .rejected => true
  | .fulfilled d => p d

/-- One element of `userSearch.data.data`: the username-lookup result used
for `id`, `name` and `displayName` (string keys may be absent or empty). -/
structure BasicUser where
  id : Int
  name : Option String
  displayName : Option String
deriving Repr, DecidableEq

/-- Body of the detailed-profile call `users.roblox.com/v1/users/{id}`.
The creation instant is carried as epoch-milliseconds (`none` models an
absent or empty `created` string, which is falsy in JS). -/
structure UserInfoPayload where
  created : Option Int
  description : Option String
  isBanned : Option Bool
  hasVerifiedBadge : Option Bool
deriving Repr, DecidableEq

/-- Body of a follower/following/friend count call: `{ count: n }`, the
`count` key possibly absent. -/
structure CountPayload where
  count : Option Int
deriving Repr, DecidableEq

/-- One element of the avatar-thumbnail `data` array. -/
structure AvatarEntry where
  imageUrl : Option String
deriving Repr, DecidableEq

/-- One element of the username-history `data` array. -/
structure HistoryEntry where
  name : Option String
deriving Repr, DecidableEq

/-- One element of `data.userPresences`. -/
structure PresenceEntry where
  userPresenceType : Option Int
deriving Repr, DecidableEq

/-- A body of shape `{ data: [...] }` (groups roles, avatar thumbnails,
username history), the `data` key possibly absent. -/
structure ListPayload (α : Type) where
  data : Option (List α)
deriving Repr, DecidableEq

/-- Body of the presence call: `{ userPresences: [...] }`, the key possibly
absent. -/
structure PresencePayload where
  userPresences : Option (List PresenceEntry)
deriving Repr, DecidableEq

/-- How every upstream call of one `fetchRobloxUserData` run settles, in the
order the code issues them. -/
structure UpstreamOracle where
  userSearch : UpstreamOutcome (List BasicUser)
  userInfo : UpstreamOutcome UserInfoPayload
  followersCount : UpstreamOutcome CountPayload
  followingsCount : UpstreamOutcome CountPayload
  friendsCount : UpstreamOutcome CountPayload
  groupsRoles : UpstreamOutcome (ListPayload Unit)
  avatarThumb : UpstreamOutcome (ListPayload AvatarEntry)
  usernameHistory : UpstreamOutcome (ListPayload HistoryEntry)
  presence : UpstreamOutcome PresencePayload
deriving Repr, DecidableEq

/-- Every fulfilled enrichment body carries the key the extraction code
dereferences (`count`, `data`, `userPresences`). -/
def wellShaped (o : UpstreamOracle) : Bool :=
  o.followersCount.shapeOkB (fun d => d.count.isSome) &&
  o.followingsCount.shapeOkB (fun d => d.count.isSome) &&
  o.friendsCount.shapeOkB (fun d => d.count.isSome) &&
  o.groupsRoles.shapeOkB (fun d => d.data.isSome) &&
  o.avatarThumb.shapeOkB (fun d => d.data.isSome) &&
  o.usernameHistory.shapeOkB (fun d => d.data.isSome) &&
  o.presence.shapeOkB (fun d => d.userPresences.isSome)

/-! ## fetchRobloxUserData (src/roblox-backend.js lines 189-315) -/

/-- How a `fetchRobloxUserData` run can throw: the `User not found` error,
the rejection of the username-lookup call itself (uncaught, it propagates to
the route handler), or a JS `TypeError` from dereferencing `undefined`
during result extraction. -/
inductive FetchError where
  | userNotFound
  | identityRejected
  | typeError
deriving Repr, DecidableEq

/-- `Date#toLocaleDateString` on the creation instant, modelled as a total
rendering of the epoch-millisecond value (the locale-dependent text is not
significant to any claim, only that it is a non-null string). -/
def localeDateString (ms : Int) : String :=
  toString ms

/-- The normalized output record built at lines 291-310.  A JS field that
can be `undefined` is `Option`-typed; `last_updated` carries the
`new Date().toISOString()` instant as epoch-milliseconds. -/
structure RobloxResult where
  username : String
  display_name : String
  estimated_creation_date : String
  account_age : String
  age_days : Int
  followers : Option Int
  followings : Option Int
  friends : Option Int
  groups_count : Int
  verified : Bool
  description : String
  user_id : Int
  avatar : String
  previous_usernames : List (Option String)
  active_status : String
  online_status : String
  profile_link : String
  last_updated : Int
deriving Repr, DecidableEq

/-- `res.status === 'fulfilled' ? res.value.data.count : 0` — on a fulfilled
body the (possibly absent) `count` key, on rejection the literal `0`. -/
def extractCount (r : UpstreamOutcome CountPayload) : Option Int :=
  match r with
  | .rejected => some 0
  | .fulfilled d => d.count

/-- `fulfilled ? value.data.data.length : 0` — dereferencing `.length` on an
absent `data` array throws a `TypeError`. -/
def extractGroups (r : UpstreamOutcome (ListPayload Unit)) :
    Except FetchError Int :=
  match r with
  | .rejected => .ok 0
  | .fulfilled d =>
      match d.data with
      | none => .error .typeError
      | some l => .ok (l.length : Int)

/-- `fulfilled ? (value.data.data[0]?.imageUrl || placeholder) : placeholder`
— indexing `[0]` on an absent `data` array throws a `TypeError`; an absent
first element, absent `imageUrl` or empty URL falls back to the placeholder. -/
def extractAvatar (r : UpstreamOutcome (ListPayload AvatarEntry)) :
    Except FetchError String :=
  match r with
  | .rejected => .ok "https://via.placeholder.com/150"
  | .fulfilled d =>
      match d.data with
      | none => .error .typeError
      | some l =>
          .ok (jsOrString (l.head? >>= fun e => e.imageUrl)
            "https://via.placeholder.com/150")

/-- `fulfilled ? value.data.data.map(h => h.name) : []` — mapping over an
absent `data` array throws a `TypeError`. -/
def extractHistory (r : UpstreamOutcome (ListPayload HistoryEntry)) :
    Except FetchError (List (Option String)) :=
  match r with
  | .rejected => .ok []
  | .fulfilled d =>
      match d.data with
      | none => .error .typeError
      | some l => .ok (l.map (fun h => h.name))

/-- Lines 282-286: `onlineStatus` starts as `'Unknown'`; when the presence
call fulfilled, `data.userPresences[0]` is consulted (a `TypeError` when the
`userPresences` key is absent, no change when the array is empty), and the
first entry's `userPresenceType` indexes the label array with `|| 'Unknown'`
as fallback. -/
def onlineStatusOf (r : UpstreamOutcome PresencePayload) :
    Except FetchError String :=
  match r with
  | .rejected => .ok "Unknown"
  | .fulfilled d =>
      match d.userPresences with
      | none => .error .typeError
      | some l =>
          match l.head? with
          | none => .ok "Unknown"
          | some entry => .ok (presenceStatusOf entry.userPresenceType)

/-- `const userInfo = userInfoRes.status === 'fulfilled' ?
userInfoRes.value.data : {}` — a rejected detailed-profile call degrades to
the empty object, every key `undefined`. -/
def extractUserInfo (r : UpstreamOutcome UserInfoPayload) : UserInfoPayload :=
  match r with
  | .fulfilled d => d
  | .rejected => ⟨none, none, none, none⟩

/-- Lines 288-310: assembling the normalized record from the extracted
pieces. -/
def normalizeRecord (nowMs : Int) (username : String) (basicUser : BasicUser)
    (userInfo : UserInfoPayload) (followers followings friends : Option Int)
    (groups_count : Int) (avatarUrl : String)
    (previousUsernames : List (Option String)) (onlineStatus : String) :
    RobloxResult :=
  let activeStatus := if userInfo.isBanned.getD false then "Banned" else "Active"
  let userId := basicUser.id
  {
    username := jsOrString basicUser.name username
    display_name := jsOrString basicUser.displayName "N/A"
    estimated_creation_date :=
      match userInfo.created with
      | some c => localeDateString c
      | none => "N/A"
    account_age :=
      match userInfo.created with
      | some c => calculateAccountAge nowMs c
      | none => "N/A"
    age_days :=
      match userInfo.created with
      | some c => calculateAgeDays nowMs c
      | none => 0
    followers := followers
    followings := followings
    friends := friends
    groups_count := groups_count
    verified := userInfo.hasVerifiedBadge.getD false
    description := jsOrString userInfo.description "N/A"
    user_id := userId
    avatar := avatarUrl
    previous_usernames := previousUsernames
    active_status := activeStatus
    online_status := onlineStatus
    profile_link := "https://www.roblox.com/users/" ++ toString userId ++ "/profile"
    last_updated := nowMs }

/-- Lines 270-310: result extraction after all enrichment promises settled.
Field extractions that can throw a `TypeError` are sequenced in source
order; if none throws, the normalized record is returned. -/
def buildResult (o : UpstreamOracle) (nowMs : Int) (username : String)
    (basicUser : BasicUser) : Except FetchError RobloxResult :=
  match extractGroups o.groupsRoles with
  | .error e => .error e
  | .ok groups_count =>
  match extractAvatar o.avatarThumb with
  | .error e => .error e
  | .ok avatarUrl =>
  match extractHistory o.usernameHistory with
  | .error e => .error e
  | .ok previousUsernames =>
  match onlineStatusOf o.presence with
  | .error e => .error e
  | .ok onlineStatus =>
  Except.ok (normalizeRecord nowMs username basicUser
    (extractUserInfo o.userInfo) (extractCount o.followersCount)
    (extractCount o.followingsCount) (extractCount o.friendsCount)
    groups_count avatarUrl previousUsernames onlineStatus)

/-- Result of the cache-miss path: the thrown error or the built record,
plus how many upstream calls were issued (the identity lookup, and the
`3 + 5` enrichment calls dispatched through the two `Promise.allSettled`
blocks once the identity resolved). -/
structure FreshOutcome where
  result : Except FetchError RobloxResult
  identityCalls : Nat
  enrichmentCalls : Nat
deriving Repr

/-- Lines 202-315 without the cache wrapper: the identity lookup (its
rejection propagates; zero matches throw `User not found`), then the eight
enrichment calls, then result extraction. -/
def fetchFresh (o : UpstreamOracle) (nowMs : Int) (username : String) :
    FreshOutcome :=
  match o.userSearch with
  | .rejected => ⟨.error .identityRejected, 1, 0⟩
  | .fulfilled users =>
      match users with
      | [] => ⟨.error .userNotFound, 1, 0⟩
      | basicUser :: _ => ⟨buildResult o nowMs username basicUser, 1, 8⟩

/-- Outcome of one whole `fetchRobloxUserData` run: the response or error,
the cache state afterwards, and the upstream calls performed. -/
structure FetchOutcome where
  result : Except FetchError RobloxResult
  cache : SimpleCache RobloxResult
  identityCalls : Nat
  enrichmentCalls : Nat
deriving Repr

/-- `fetchRobloxUserData(username)` (lines 189-315): the cache is consulted
under key `user:` + the lowercased username; a hit returns the cached record
with no upstream call; a miss runs the fresh path and caches a successful
result with the default TTL.  The run is modelled at the single instant
`nowMs`. -/
def fetchRobloxUserData (o : UpstreamOracle) (nowMs : Int)
    (c : SimpleCache RobloxResult) (username : String) : FetchOutcome :=
  let cacheKey := "user:" ++ username.toLower
  let g := c.get nowMs cacheKey
  match g.1 with
  | some cached => ⟨.ok cached, g.2, 0, 0⟩
  | none =>
      let fo := fetchFresh o nowMs username
      match fo.result with
      | .ok r =>
          ⟨.ok r, (g.2).set nowMs cacheKey r defaultTTL,
            fo.identityCalls, fo.enrichmentCalls⟩
      | .error e => ⟨.error e, g.2, fo.identityCalls, fo.enrichmentCalls⟩

/-! ## RobloxAPIQueue (src/roblox-backend.js lines 112-157) -/

/-- `executeRequest`: awaits the job's thunk and resolves its promise with
the value, or rejects it with the thrown error — the job's own settled
outcome, untouched. -/
def executeRequest {ε α : Type} (job : Except ε α) : Except ε α :=
  job

/-- One observable step of the `process()` worker loop. -/
inductive QueueEvent (ε α : Type) where
  | batchSettled (results : List (Except ε α))
  | interBatchDelay (ms : Nat)
deriving Repr

/-- The `process()` loop: while the queue is non-empty, splice off up to
`batchSize` jobs, settle them all (`Promise.allSettled`), and sleep
`delayMs` before the next batch when work remains.  A job is modelled by
its settled outcome (`Except`), delivered unchanged by `executeRequest`. -/
def processTrace {ε α : Type} (batchSize delayMs : Nat) :
    List (Except ε α) → List (QueueEvent ε α)
  | [] => []
  | j :: rest =>
      QueueEvent.batchSettled ((j :: rest.take (batchSize - 1)).map executeRequest) ::
        (if (rest.drop (batchSize - 1)).isEmpty then [] else
          QueueEvent.interBatchDelay delayMs ::
            processTrace batchSize delayMs (rest.drop (batchSize - 1)))
termination_by l => l.length
decreasing_by
  simp only [List.length_drop, List.length_cons]
  omega

/-! ## Concrete scenarios used to exercise the definitions -/

/-- An empty cache of normalized records. -/
def emptyCacheR : SimpleCache RobloxResult := ⟨[]⟩

/-- A sample username-lookup match. -/
def buildermanUser : BasicUser := ⟨156, some "builderman", some "Builderman"⟩

/-- A run in which every upstream call fulfils with a well-shaped body. -/
def oracleAllOk : UpstreamOracle where
  userSearch := .fulfilled [buildermanUser]
  userInfo := .fulfilled ⟨some 0, some "Roblox staff", some false, some true⟩
  followersCount := .fulfilled ⟨some 25⟩
  followingsCount := .fulfilled ⟨some 3⟩
  friendsCount := .fulfilled ⟨some 7⟩
  groupsRoles := .fulfilled ⟨some [(), ()]⟩
  avatarThumb := .fulfilled ⟨some [⟨some "https://tr.rbxcdn.com/a.png"⟩]⟩
  usernameHistory := .fulfilled ⟨some [⟨some "oldname"⟩]⟩
  presence := .fulfilled ⟨some [⟨some 1⟩]⟩

/-- A run in which the identity lookup succeeds and every enrichment call is
rejected. -/
def oracleAllRejected : UpstreamOracle where
  userSearch := .fulfilled [buildermanUser]
  userInfo := .rejected
  followersCount := .rejected
  followingsCount := .rejected
  friendsCount := .rejected
  groupsRoles := .rejected
  avatarThumb := .rejected
  usernameHistory := .rejected
  presence := .rejected

/-- Like `oracleAllOk`, except the followers-count call fulfils with a body
that lacks the `count` key (an unexpected shape on a 2xx response). -/
def oracleBadFollowers : UpstreamOracle :=
  { oracleAllOk with followersCount := .fulfilled ⟨none⟩ }

/-- Like `oracleAllOk`, except the mandatory detailed-profile call is
rejected. -/
def oracleUserInfoDown : UpstreamOracle :=
  { oracleAllOk with userInfo := .rejected }

/-- A run in which the identity lookup fulfils with zero matches. -/
def oracleNoMatch : UpstreamOracle :=
  { oracleAllOk with userSearch := .fulfilled [] }

/-- The `followers` field of a successful aggregation result, `none` when
the run threw. -/
def okFollowers : Except FetchError RobloxResult → Option (Option Int)
  | .ok r => some r.followers
  | .error _ => none

/-- The `description` field of a successful aggregation result, `none` when
the run threw. -/
def okDescription : Except FetchError RobloxResult → Option String
  | .ok r => some r.description
  | .error _ => none

/-- A one-entry cache of numbers, expiring at instant 100. -/
def cacheW : SimpleCache Nat := ⟨[("k", ⟨42, 100⟩)]⟩

/-- A cache holding an entry for lowercased user `bob` that expires at
instant 100. -/
def cacheBobW : SimpleCache Nat := ⟨[("user:bob", ⟨7, 100⟩)]⟩

/-- The record `fetchRobloxUserData` builds from `oracleAllOk` at instant 0
for username `abc`. -/
def recordAllOk : RobloxResult where
  username := "builderman"
  display_name := "Builderman"
  estimated_creation_date := "0"
  account_age := "0 days"
  age_days := 0
  followers := some 25
  followings := some 3
  friends := some 7
  groups_count := 2
  verified := true
  description := "Roblox staff"
  user_id := 156
  avatar := "https://tr.rbxcdn.com/a.png"
  previous_usernames := [some "oldname"]
  active_status := "Active"
  online_status := "Online"
  profile_link := "https://www.roblox.com/users/156/profile"
  last_updated := 0

/-! ## Helper lemmas -/

theorem lookup_filter_self {β : Type} (l : List (String × β)) (k : String) :
    (l.filter (fun p => p.1 != k)).lookup k = none := by
  induction l with
  | nil => rfl
  | cons p t ih =>
      by_cases hp : p.1 = k
      · have hb : (p.1 != k) = false := by simp [hp]
        simp only [List.filter_cons, hb]
        exact ih
      · have hb : (p.1 != k) = true := by simp [hp]
        have hk : (k == p.1) = false := by
          simp [beq_eq_false_iff_ne, Ne.symm hp]
        simp only [List.filter_cons, hb, List.lookup, hk]
        exact ih

theorem lookup_filter_other {β : Type} (l : List (String × β)) (k k2 : String)
    (h : k2 ≠ k) :
    (l.filter (fun p => p.1 != k)).lookup k2 = l.lookup k2 := by
  induction l with
  | nil => rfl
  | cons p t ih =>
      by_cases hp : p.1 = k
      · have hb : (p.1 != k) = false := by simp [hp]
        have hk : (k2 == p.1) = false := by
          simp [beq_eq_false_iff_ne, hp, h]
        simp only [List.filter_cons, hb, List.lookup, hk]
        exact ih
      · have hb : (p.1 != k) = true := by simp [hp]
        by_cases hk2 : k2 = p.1
        · have hk : (k2 == p.1) = true := by simp [hk2]
          simp only [List.filter_cons, hb, List.lookup, hk]
        · have hk : (k2 == p.1) = false := by simp [beq_eq_false_iff_ne, hk2]
          simp only [List.filter_cons, hb, List.lookup, hk]
          exact ih

theorem any_of_lookup {β : Type} (l : List (String × β)) (k : String) (e : β)
    (h : l.lookup k = some e) : l.any (fun p => p.1 == k) = true := by
  induction l with
  | nil => exact absurd h (by simp [List.lookup])
  | cons p t ih =>
      by_cases hp : k = p.1
      · simp [List.any_cons, hp]
      · have hk : (k == p.1) = false := by simp [beq_eq_false_iff_ne, hp]
        simp only [List.lookup, hk] at h
        simp only [List.any_cons, ih h, Bool.or_true]

theorem get_set_fresh {α : Type} (c : SimpleCache α) (now now2 : Int)
    (k : String) (v : α) (ttl : Int) (h : ¬ now2 > now + ttl) :
    (c.set now k v ttl).get now2 k = (some v, c.set now k v ttl) := by
  simp [SimpleCache.set, SimpleCache.get, List.lookup, h]

theorem fetchFresh_identityCalls (o : UpstreamOracle) (now : Int) (u : String) :
    (fetchFresh o now u).identityCalls = 1 := by
  cases hs : o.userSearch with
  | rejected => simp [fetchFresh, hs]
  | fulfilled users => cases users <;> simp [fetchFresh, hs]

theorem extractCount_isSome (r : UpstreamOutcome CountPayload)
    (h : r.shapeOkB (fun d => d.count.isSome) = true) :
    (extractCount r).isSome = true ∧
      (r = .rejected → extractCount r = some 0) := by
  cases r with
  | rejected => exact ⟨rfl, fun _ => rfl⟩
  | fulfilled d =>
      refine ⟨?_, fun hc => nomatch hc⟩
      simpa [extractCount, UpstreamOutcome.shapeOkB] using h

theorem extractGroups_ok (r : UpstreamOutcome (ListPayload Unit))
    (h : r.shapeOkB (fun d => d.data.isSome) = true) :
    ∃ n, extractGroups r = Except.ok n ∧ (r = .rejected → n = 0) := by
  cases r with
  | rejected => exact ⟨0, rfl, fun _ => rfl⟩
  | fulfilled d =>
      simp only [UpstreamOutcome.shapeOkB] at h
      obtain ⟨l, hl⟩ := Option.isSome_iff_exists.mp h
      exact ⟨(l.length : Int), by simp [extractGroups, hl], fun hc => nomatch hc⟩

theorem extractAvatar_ok (r : UpstreamOutcome (ListPayload AvatarEntry))
    (h : r.shapeOkB (fun d => d.data.isSome) = true) :
    ∃ s, extractAvatar r = Except.ok s ∧
      (r = .rejected → s = "https://via.placeholder.com/150") := by
  cases r with
  | rejected => exact ⟨"https://via.placeholder.com/150", rfl, fun _ => rfl⟩
  | fulfilled d =>
      simp only [UpstreamOutcome.shapeOkB] at h
      obtain ⟨l, hl⟩ := Option.isSome_iff_exists.mp h
      exact ⟨jsOrString (l.head? >>= fun e => e.imageUrl)
        "https://via.placeholder.com/150",
        by simp [extractAvatar, hl], fun hc => nomatch hc⟩

theorem extractHistory_ok (r : UpstreamOutcome (ListPayload HistoryEntry))
    (h : r.shapeOkB (fun d => d.data.isSome) = true) :
    ∃ l, extractHistory r = Except.ok l ∧ (r = .rejected → l = []) := by
  cases r with
  | rejected => exact ⟨[], rfl, fun _ => rfl⟩
  | fulfilled d =>
      simp only [UpstreamOutcome.shapeOkB] at h
      obtain ⟨l, hl⟩ := Option.isSome_iff_exists.mp h
      exact ⟨l.map (fun hh => hh.name),
        by simp [extractHistory, hl], fun hc => nomatch hc⟩

theorem onlineStatusOf_ok (r : UpstreamOutcome PresencePayload)
    (h : r.shapeOkB (fun d => d.userPresences.isSome) = true) :
    ∃ s, onlineStatusOf r = Except.ok s ∧ (r = .rejected → s = "Unknown") := by
  cases r with
  | rejected => exact ⟨"Unknown", rfl, fun _ => rfl⟩
  | fulfilled d =>
      simp only [UpstreamOutcome.shapeOkB] at h
      obtain ⟨l, hl⟩ := Option.isSome_iff_exists.mp h
      cases l with
      | nil => exact ⟨"Unknown", by simp [onlineStatusOf, hl], fun hc => nomatch hc⟩
      | cons e t =>
          exact ⟨presenceStatusOf e.userPresenceType,
            by simp [onlineStatusOf, hl], fun hc => nomatch hc⟩

theorem buildResult_ok (o : UpstreamOracle) (now : Int) (u : String)
    (b : BasicUser) (hws : wellShaped o = true) :
    ∃ r, buildResult o now u b = Except.ok r ∧
      r.followers.isSome = true ∧ r.followings.isSome = true ∧
      r.friends.isSome = true ∧
      (o.followersCount = .rejected → r.followers = some 0) ∧
      (o.followingsCount = .rejected → r.followings = some 0) ∧
      (o.friendsCount = .rejected → r.friends = some 0) ∧
      (o.groupsRoles = .rejected → r.groups_count = 0) ∧
      (o.avatarThumb = .rejected → r.avatar = "https://via.placeholder.com/150") ∧
      (o.usernameHistory = .rejected → r.previous_usernames = []) ∧
      (o.presence = .rejected → r.online_status = "Unknown") ∧
      (o.userInfo = .rejected →
        r.description = "N/A" ∧ r.account_age = "N/A" ∧
        r.estimated_creation_date = "N/A" ∧ r.age_days = 0 ∧
        r.verified = false ∧ r.active_status = "Active") := by
  simp only [wellShaped, Bool.and_eq_true] at hws
  obtain ⟨⟨⟨⟨⟨⟨h1, h2⟩, h3⟩, h4⟩, h5⟩, h6⟩, h7⟩ := hws
  obtain ⟨hf1, hf1d⟩ := extractCount_isSome o.followersCount h1
  obtain ⟨hf2, hf2d⟩ := extractCount_isSome o.followingsCount h2
  obtain ⟨hf3, hf3d⟩ := extractCount_isSome o.friendsCount h3
  obtain ⟨g, hg, hgd⟩ := extractGroups_ok o.groupsRoles h4
  obtain ⟨av, hav, havd⟩ := extractAvatar_ok o.avatarThumb h5
  obtain ⟨hist, hh, hhd⟩ := extractHistory_ok o.usernameHistory h6
  obtain ⟨os, hos, hosd⟩ := onlineStatusOf_ok o.presence h7
  refine ⟨normalizeRecord now u b (extractUserInfo o.userInfo)
      (extractCount o.followersCount) (extractCount o.followingsCount)
      (extractCount o.friendsCount) g av hist os,
    ?_, ?_, ?_, ?_, ?_, ?_, ?_, ?_, ?_, ?_, ?_, ?_⟩
  · simp only [buildResult, hg, hav, hh, hos]
  · simpa [normalizeRecord] using hf1
  · simpa [normalizeRecord] using hf2
  · simpa [normalizeRecord] using hf3
  · intro hc; simpa [normalizeRecord] using hf1d hc
  · intro hc; simpa [normalizeRecord] using hf2d hc
  · intro hc; simpa [normalizeRecord] using hf3d hc
  · intro hc; simpa [normalizeRecord] using hgd hc
  · intro hc; simpa [normalizeRecord] using havd hc
  · intro hc; simpa [normalizeRecord] using hhd hc
  · intro hc; simpa [normalizeRecord] using hosd hc
  · intro hui
    simp [normalizeRecord, hui, extractUserInfo, jsOrString, Option.getD]

/-! ## Claim theorems -/

/-- Claim C2: the presence-status mapping is total — code 0 maps to
`Offline`, 1 to `Online`, 2 to `In Game`, 3 to `In Studio`; every other
code, an absent first presence entry, an absent `userPresenceType`, and a
rejected presence call all map to `Unknown`, without erroring. -/
theorem presence_mapping_total (c : Int) (rest : List PresenceEntry) :
    presenceStatusOf (some 0) = "Offline" ∧
    presenceStatusOf (some 1) = "Online" ∧
    presenceStatusOf (some 2) = "In Game" ∧
    presenceStatusOf (some 3) = "In Studio" ∧
    ((c < 0 ∨ 3 < c) → presenceStatusOf (some c) = "Unknown") ∧
    presenceStatusOf none = "Unknown" ∧
    onlineStatusOf UpstreamOutcome.rejected = Except.ok "Unknown" ∧
    onlineStatusOf (UpstreamOutcome.fulfilled ⟨some []⟩) = Except.ok "Unknown" ∧
    (∀ cd : Option Int,
      onlineStatusOf (UpstreamOutcome.fulfilled ⟨some (⟨cd⟩ :: rest)⟩) =
        Except.ok (presenceStatusOf cd)) := by
  refine ⟨by decide, by decide, by decide, by decide, ?_, rfl, rfl, rfl,
    fun cd => rfl⟩
  intro hc
  unfold presenceStatusOf jsArrayIndex
  rcases hc with hneg | hbig
  · have hn : ¬ (0 ≤ c) := by omega
    simp [hn, jsOrString]
  · have h0 : 0 ≤ c := by omega
    have h4 : presenceLabels.length ≤ c.toNat := by
      simp only [presenceLabels, List.length_cons, List.length_nil]
      omega
    have h5 : presenceLabels.get? c.toNat = none := List.get?_eq_none.mpr h4
    simp only [List.get?_eq_getElem?] at h5
    simp [h0, h5, jsOrString]

/-- Witness for C2: a concrete out-of-range presence code resolves to
`Unknown`. -/
theorem presence_mapping_total_witness :
    presenceStatusOf (some 7) = "Unknown" :=
  (presence_mapping_total 7 []).2.2.2.2.1 (Or.inr (by decide))

/-- Counterexample to claim C3: for a creation instant exactly 400 days
before now, `calculateAgeDays` does return 400, but `calculateAccountAge`
returns `1 years, 1 months, 10 days` (the day remainder is
`400 mod 30 = 10`), not the claimed `1 years, 1 months, 5 days`. -/
theorem age_400_days_counterexample :
    calculateAgeDays (400 * msPerDay) 0 = 400 ∧
    calculateAccountAge (400 * msPerDay) 0 ≠ "1 years, 1 months, 5 days" ∧
    calculateAccountAge (400 * msPerDay) 0 = "1 years, 1 months, 10 days" := by
  refine ⟨by decide, by decide, by decide⟩

/-- Claim C3 (amended): for a creation instant exactly `d` whole days
before now, `calculateAgeDays` returns `d`; whenever the year count
`floor(d/365)` is positive, `calculateAccountAge` renders
`floor(d/365)` years, `floor((d mod 365)/30)` months and `d mod 30` days;
for `d = 400` this is `1 years, 1 months, 10 days`. -/
theorem age_formula (nowMs createdMs d : Int)
    (h : nowMs - createdMs = d * msPerDay) :
    calculateAgeDays nowMs createdMs = d ∧
    (0 < Int.fdiv d 365 → calculateAccountAge nowMs createdMs =
      toString (Int.fdiv d 365) ++ " years, " ++
      toString (Int.fdiv (Int.tmod d 365) 30) ++ " months, " ++
      toString (Int.tmod d 30) ++ " days") ∧
    (d = 400 → calculateAccountAge nowMs createdMs =
      "1 years, 1 months, 10 days") := by
  have hd : Int.fdiv (nowMs - createdMs) msPerDay = d := by
    rw [h]
    exact Int.mul_fdiv_cancel d (by decide)
  refine ⟨?_, ?_, ?_⟩
  · simpa [calculateAgeDays] using hd
  · intro hy
    simp only [calculateAccountAge, hd]
    rw [if_pos hy]
  · intro h400
    subst h400
    simp only [calculateAccountAge, hd]
    decide

/-- Witness for C3 (amended) at the concrete instant pair. -/
theorem age_formula_witness :
    calculateAgeDays (400 * msPerDay) 0 = 400 ∧
    calculateAccountAge (400 * msPerDay) 0 = "1 years, 1 months, 10 days" := by
  have h := age_formula (400 * msPerDay) 0 400 (by decide)
  exact ⟨h.1, h.2.2 rfl⟩

/-- Claim C4: `get` returns the stored value when an unexpired entry
exists, returns absence and evicts (only) the stale entry when the expiry
has been exceeded, and returns absence without change when no entry
exists. -/
theorem cache_get_expiry (α : Type) (c : SimpleCache α) (now : Int)
    (k : String) :
    (∀ e, c.cache.lookup k = some e → ¬ now > e.expiry →
      c.get now k = (some e.value, c)) ∧
    (∀ e, c.cache.lookup k = some e → now > e.expiry →
      (c.get now k).1 = none ∧
      ((c.get now k).2).cache.lookup k = none ∧
      (∀ k2, k2 ≠ k → ((c.get now k).2).cache.lookup k2 = c.cache.lookup k2)) ∧
    (c.cache.lookup k = none → c.get now k = (none, c)) := by
  refine ⟨?_, ?_, ?_⟩
  · intro e he hne
    simp [SimpleCache.get, he, hne]
  · intro e he hexp
    refine ⟨?_, ?_, ?_⟩
    · simp [SimpleCache.get, he, hexp]
    · simp [SimpleCache.get, he, hexp, lookup_filter_self]
    · intro k2 hk2
      simp [SimpleCache.get, he, hexp, lookup_filter_other _ _ _ hk2]
  · intro he
    simp [SimpleCache.get, he]

/-- Witness for C4: a concrete entry expiring at 100 is returned at 50 and
absent at 150. -/
theorem cache_get_expiry_witness :
    cacheW.get 50 "k" = (some 42, cacheW) ∧ (cacheW.get 150 "k").1 = none := by
  refine ⟨?_, ?_⟩
  · exact (cache_get_expiry Nat cacheW 50 "k").1 ⟨42, 100⟩ rfl (by decide)
  · exact ((cache_get_expiry Nat cacheW 150 "k").2.1 ⟨42, 100⟩ rfl (by decide)).1

/-- Claim C9: in every cache state, `getStats` reports `hits = 0` and
`misses = 0` (the class keeps no counters), and `keys` is the stored-entry
count. -/
theorem stats_counters_constant (α : Type) (c : SimpleCache α) :
    c.getStats.hits = 0 ∧ c.getStats.misses = 0 ∧
      c.getStats.keys = c.cache.length :=
  ⟨rfl, rfl, rfl⟩

/-- Claim C10: `del` reports physical, not logical, presence — for an
entry whose expiry has been exceeded but which was not yet evicted, `get`
signals absence while `del` returns `true`, so the cache-delete endpoint
(which calls `del` on the key `user:` + lowercased username) reports the
user as found in cache. -/
theorem del_reports_physical_presence (α : Type) (c : SimpleCache α)
    (now : Int) (k : String) (e : CacheEntry α)
    (hl : c.cache.lookup k = some e)
    (hexp : now > e.expiry) :
    (c.get now k).1 = none ∧
    (c.del k).1 = true ∧
    cacheDeleteMessage (c.del k).1 = "User cache cleared" := by
  have hany := any_of_lookup _ _ _ hl
  refine ⟨?_, ?_, ?_⟩
  · simp [SimpleCache.get, hl, hexp]
  · simpa [SimpleCache.del] using hany
  · simp [SimpleCache.del, hany, cacheDeleteMessage]

/-- Witness for C10: at instant 200, the entry for user `Bob` expired at
100; `get` signals absence while `del` still reports `true`. -/
theorem del_reports_physical_presence_witness :
    (cacheBobW.get 200 "user:bob").1 = none ∧
    (cacheBobW.del "user:bob").1 = true := by
  have h := del_reports_physical_presence Nat cacheBobW 200 "user:bob" ⟨7, 100⟩
    rfl (by decide)
  exact ⟨h.1, h.2.1⟩

/-- Claim C8: seven submitted jobs with batch size 3 are processed as
exactly three batches of sizes 3, 3, 1 in submission order, the fixed
inter-batch delay separating consecutive batches, each batch fully settled
before the next starts, and each job's delivered outcome is its own settled
result (a failing job rejects only its own promise), independent of its
siblings. -/
theorem queue_batches_seven (ε α : Type) (j1 j2 j3 j4 j5 j6 j7 : Except ε α)
    (d : Nat) :
    processTrace 3 d [j1, j2, j3, j4, j5, j6, j7] =
      [QueueEvent.batchSettled [j1, j2, j3],
       QueueEvent.interBatchDelay d,
       QueueEvent.batchSettled [j4, j5, j6],
       QueueEvent.interBatchDelay d,
       QueueEvent.batchSettled [j7]] := by
  simp [processTrace, executeRequest]

/-- Claim C6: when the identity lookup fulfils with zero matches, the
aggregation throws the `User not found` error and no enrichment call is
attempted. -/
theorem user_not_found_no_enrichment (o : UpstreamOracle) (now : Int)
    (c : SimpleCache RobloxResult) (u : String)
    (hmiss : (c.get now ("user:" ++ u.toLower)).1 = none)
    (hzero : o.userSearch = .fulfilled []) :
    (fetchRobloxUserData o now c u).result =
      Except.error FetchError.userNotFound ∧
    (fetchRobloxUserData o now c u).enrichmentCalls = 0 := by
  refine ⟨?_, ?_⟩ <;> simp [fetchRobloxUserData, hmiss, fetchFresh, hzero]

/-- Witness for C6 at the concrete username `doesnotexist123` with an
empty cache. -/
theorem user_not_found_no_enrichment_witness :
    (fetchRobloxUserData oracleNoMatch 0 emptyCacheR
      "doesnotexist123").result = Except.error FetchError.userNotFound := by
  exact (user_not_found_no_enrichment oracleNoMatch 0 emptyCacheR
    "doesnotexist123" rfl rfl).1

/-- Counterexample to claim C1: when the followers enrichment call fulfils
with a body of unexpected shape (a 2xx response without a `count` key), the
run succeeds but the `followers` field is `undefined` (`none`), not the
documented default 0 — unexpected shapes are not defaulted. -/
theorem unexpected_shape_not_defaulted :
    okFollowers (fetchRobloxUserData oracleBadFollowers 1000 emptyCacheR
      "builderman").result = some none := by
  rfl

/-- Claim C1 (amended): for every username whose identity resolution
succeeds, when every fulfilled enrichment response is well-shaped, the
aggregation returns a record with the count fields present, and every
*rejected* enrichment call's field equals its documented default (0 for
the counts, the placeholder URL for the avatar, the empty sequence for
username history, `Unknown` for presence); no enrichment rejection raises
a request-level error.  (A fulfilled enrichment response of unexpected
shape is not defaulted.) -/
theorem aggregation_success_and_defaults (o : UpstreamOracle) (now : Int)
    (c : SimpleCache RobloxResult) (u : String) (b : BasicUser)
    (rest : List BasicUser)
    (hmiss : (c.get now ("user:" ++ u.toLower)).1 = none)
    (hid : o.userSearch = .fulfilled (b :: rest))
    (hws : wellShaped o = true) :
    ∃ r, (fetchRobloxUserData o now c u).result = Except.ok r ∧
      r.followers.isSome = true ∧ r.followings.isSome = true ∧
      r.friends.isSome = true ∧
      (o.followersCount = .rejected → r.followers = some 0) ∧
      (o.followingsCount = .rejected → r.followings = some 0) ∧
      (o.friendsCount = .rejected → r.friends = some 0) ∧
      (o.groupsRoles = .rejected → r.groups_count = 0) ∧
      (o.avatarThumb = .rejected → r.avatar = "https://via.placeholder.com/150") ∧
      (o.usernameHistory = .rejected → r.previous_usernames = []) ∧
      (o.presence = .rejected → r.online_status = "Unknown") := by
  obtain ⟨r, hb, h1, h2, h3, h4, h5, h6, h7, h8, h9, h10, _⟩ :=
    buildResult_ok o now u b hws
  refine ⟨r, ?_, h1, h2, h3, h4, h5, h6, h7, h8, h9, h10⟩
  simp [fetchRobloxUserData, hmiss, fetchFresh, hid, hb]

/-- Witness for C1 (amended): with every enrichment call rejected, the run
succeeds and the followers field carries the default 0. -/
theorem aggregation_success_and_defaults_witness :
    okFollowers (fetchRobloxUserData oracleAllRejected 1000 emptyCacheR
      "builderman").result = some (some 0) := by
  obtain ⟨r, hr, _, _, _, hf, _⟩ :=
    aggregation_success_and_defaults oracleAllRejected 1000 emptyCacheR
      "builderman" buildermanUser [] rfl rfl (by decide)
  rw [hr]
  simp [okFollowers, hf rfl]

/-- Counterexample to claim C7: with the mandatory detailed-profile call
rejected (and all other calls succeeding), the request does not abort with
an error — it returns a record whose description has been recovered to the
default `N/A`. -/
theorem userinfo_failure_not_fatal :
    okDescription (fetchRobloxUserData oracleUserInfoDown 1000 emptyCacheR
      "builderman").result = some "N/A" := by
  rfl

/-- Claim C7 (amended): a failure of the detailed-profile call does not
abort the request; its fields are recovered into defaults (`N/A` strings,
`age_days = 0`, `verified = false`, `active_status = Active`).  Among the
upstream calls, only the identity lookup's failure aborts the request. -/
theorem userinfo_failure_recovered (o : UpstreamOracle) (now : Int)
    (c : SimpleCache RobloxResult) (u : String) (b : BasicUser)
    (rest : List BasicUser)
    (hmiss : (c.get now ("user:" ++ u.toLower)).1 = none)
    (hid : o.userSearch = .fulfilled (b :: rest))
    (hws : wellShaped o = true)
    (hui : o.userInfo = .rejected) :
    ∃ r, (fetchRobloxUserData o now c u).result = Except.ok r ∧
      r.description = "N/A" ∧ r.account_age = "N/A" ∧
      r.estimated_creation_date = "N/A" ∧ r.age_days = 0 ∧
      r.verified = false ∧ r.active_status = "Active" := by
  obtain ⟨r, hb, _, _, _, _, _, _, _, _, _, _, hrec⟩ :=
    buildResult_ok o now u b hws
  obtain ⟨hd, ha, he, hay, hv, has⟩ := hrec hui
  refine ⟨r, ?_, hd, ha, he, hay, hv, has⟩
  simp [fetchRobloxUserData, hmiss, fetchFresh, hid, hb]

/-- Witness for C7 (amended): with all enrichment calls (including the
detailed-profile call) rejected, the aggregation still returns a record
with the defaulted description. -/
theorem userinfo_failure_recovered_witness :
    okDescription (fetchRobloxUserData oracleAllRejected 5 emptyCacheR
      "builderman").result = some "N/A" := by
  obtain ⟨r, hr, hd, _⟩ := userinfo_failure_recovered oracleAllRejected 5
    emptyCacheR "builderman" buildermanUser [] rfl rfl (by decide) rfl
  rw [hr]
  simp [okDescription, hd]

/-- Claim C5: running the aggregation path twice with the same
case-normalized key, the first run a cache miss that succeeds, the second
within the TTL window of the first, performs the upstream calls only once:
the first run issues its identity lookup (and enrichment calls), the second
short-circuits on the cache with zero upstream calls and returns the first
run's record, whatever its own upstream oracle would have answered. -/
theorem cache_idempotent (o1 o2 : UpstreamOracle) (now1 now2 : Int)
    (c : SimpleCache RobloxResult) (u1 u2 : String) (r : RobloxResult)
    (hkey : u1.toLower = u2.toLower)
    (hmiss : (c.get now1 ("user:" ++ u1.toLower)).1 = none)
    (h1 : (fetchRobloxUserData o1 now1 c u1).result = Except.ok r)
    (httl : now2 ≤ now1 + defaultTTL) :
    (fetchRobloxUserData o2 now2
      (fetchRobloxUserData o1 now1 c u1).cache u2).result = Except.ok r ∧
    (fetchRobloxUserData o2 now2
      (fetchRobloxUserData o1 now1 c u1).cache u2).identityCalls = 0 ∧
    (fetchRobloxUserData o2 now2
      (fetchRobloxUserData o1 now1 c u1).cache u2).enrichmentCalls = 0 ∧
    (fetchRobloxUserData o1 now1 c u1).identityCalls = 1 := by
  cases hres : (fetchFresh o1 now1 u1).result with
  | error e =>
      rw [fetchRobloxUserData] at h1
      simp only [hmiss, hres] at h1
      exact absurd h1 (by simp)
  | ok r0 =>
      have hr0 : r0 = r := by
        rw [fetchRobloxUserData] at h1
        simp only [hmiss, hres, Except.ok.injEq] at h1
        exact h1
      subst hr0
      have hkk : ("user:" ++ u2.toLower) = ("user:" ++ u1.toLower) := by
        rw [hkey]
      have hget := get_set_fresh ((c.get now1 ("user:" ++ u1.toLower)).2)
        now1 now2 ("user:" ++ u1.toLower) r0 defaultTTL (by omega)
      refine ⟨?_, ?_, ?_, ?_⟩ <;>
        simp [fetchRobloxUserData, hmiss, hres, hkk, hget,
          fetchFresh_identityCalls]

/-- Witness for C5: a second run at instant 100000 on the cache produced by
a first run at instant 0 returns the cached record with no upstream calls. -/
theorem cache_idempotent_witness :
    (fetchRobloxUserData oracleAllOk 100000
      (fetchRobloxUserData oracleAllOk 0 emptyCacheR "abc").cache
      "abc").result = Except.ok recordAllOk ∧
    (fetchRobloxUserData oracleAllOk 100000
      (fetchRobloxUserData oracleAllOk 0 emptyCacheR "abc").cache
      "abc").enrichmentCalls = 0 := by
  have h := cache_idempotent oracleAllOk oracleAllOk 0 100000 emptyCacheR
    "abc" "abc" recordAllOk rfl rfl rfl (by decide)
  exact ⟨h.1, h.2.2.1⟩

end RobloxBackend
